import Mathlib

/-!
Shallow embedding of the `memlayout` / `alloy` header-only C++ library
(`src/alloy/utils.hpp`, `src/unnamed/part_001` aka `memlayout.hpp`).

The platform size type is modelled as a 64-bit `size_t`: values are `Nat`
and every C++ arithmetic operation that wraps is followed by `% 2^64`.
`std::optional<T>` is modelled as `Option`; calling `.value()` on an
optional, which throws `std::bad_optional_access` when the optional is
empty, is modelled as `Except Unit` with `.error ()` standing for the
thrown exception.

Source subtleties carried over faithfully:
  * In `checked_add` the `check` lambda returns a `std::optional`, which
    `checked_op` contextually converts to `bool`: the optional is engaged
    (truthy) exactly when `res < (x | y)` is FALSE.
  * In `checked_mul` the half-width split uses `half = sizeof(T) / 2`,
    i.e. 4 (bytes) for a 64-bit `size_t`, so all shifts are by 4 bits.
  * `wrap_op` reduces `op(x, y)` modulo `n` where the callers pass
    `n = sizeof(decltype(x))`, i.e. 8 for `size_t`.
  * `required_padding` applies the C++ logical negation `!` (not the
    bitwise `~`) to `wrap_sub(align, 1)`.
  * `from_size_align` returns the empty optional when `align != 0 &&
    is_power_of_two(align)` holds, as written in the source.
-/

namespace Memlayout

/-- Modulus of the 64-bit platform size type (`size_t`). -/
def SIZE_MOD : Nat := 2 ^ 64

/-- `sizeof(size_t)` in bytes; the modulus the source passes to `wrap_op`. -/
def SIZE_BYTES : Nat := 8

/-- `std::numeric_limits<size_t>::max()`. -/
def MAX_SIZE : Nat := SIZE_MOD - 1

/-- `is_power_of_two(n)`: `n != 0 && (n & (n - 1)) == 0`. -/
def is_power_of_two (n : Nat) : Bool :=
  if n == 0 then false else Nat.land n (n - 1) == 0

/-- Bitwise complement `~a` on a 64-bit unsigned value. -/
def not64 (a : Nat) : Nat := MAX_SIZE - a % SIZE_MOD

/-- C++ unsigned subtraction on `size_t`: `x - y` modulo `2^64`. -/
def sub64 (x y : Nat) : Nat := (x % SIZE_MOD + SIZE_MOD - y % SIZE_MOD) % SIZE_MOD

/-- `bit_clear_range(value, offset, n)` instantiated at `T = size_t`:
`mask = max >> (64 - n); value & ~(mask << offset)`. -/
def bit_clear_range (value offset n : Nat) : Nat :=
  let mask := MAX_SIZE >>> (64 - n)
  Nat.land value (not64 ((mask <<< offset) % SIZE_MOD))

/-- `wrap_op(op, n, x, y)`: `op(x, y) % n`. -/
def wrap_op (op : Nat → Nat → Nat) (n x y : Nat) : Nat := op x y % n

/-- `wrap_add(x, y)` with `n = sizeof(size_t) = 8`; the lambda's `x + y`
wraps modulo `2^64` as C++ unsigned addition does. -/
def wrap_add (x y : Nat) : Nat :=
  wrap_op (fun a b => (a + b) % SIZE_MOD) SIZE_BYTES x y

/-- `wrap_sub(x, y)` with `n = sizeof(size_t) = 8`; the lambda's `x - y`
is C++ unsigned subtraction modulo `2^64`. -/
def wrap_sub (x y : Nat) : Nat :=
  wrap_op (fun a b => sub64 a b) SIZE_BYTES x y

/-- `checked_op(op, check, x, y)`: compute `raw = op(x, y)`; if
`check(raw, x, y)` is truthy return the empty optional, else `raw`. -/
def checked_op (op : Nat → Nat → Nat) (check : Nat → Nat → Nat → Bool)
    (x y : Nat) : Option Nat :=
  let raw_result := op x y
  if check raw_result x y then none else some raw_result

/-- `checked_add(x, y)`: the check lambda builds `res < (x | y) ?
optional() : optional(res)`, so its contextual bool value is
`!(res < (x | y))`. -/
def checked_add (x y : Nat) : Option Nat :=
  checked_op (fun a b => (a + b) % SIZE_MOD)
    (fun res a b => !(decide (res < Nat.lor a b))) x y

/-- The numeric value computed by `checked_mul`'s check lambda, with
`half = sizeof(size_t) / 2 = 4`; every product and sum wraps mod `2^64`. -/
def mul_check_val (x y : Nat) : Nat :=
  let half := SIZE_BYTES / 2
  let a := (x >>> half) * bit_clear_range y 0 half % SIZE_MOD
  let b := bit_clear_range x 0 half * (y >>> half) % SIZE_MOD
  ((x >>> half) * (y >>> half) % SIZE_MOD + (a >>> half) + (b >>> half)) % SIZE_MOD

/-- `checked_mul(x, y)`: the check's numeric result is truthy iff nonzero. -/
def checked_mul (x y : Nat) : Option Nat :=
  checked_op (fun a b => a * b % SIZE_MOD)
    (fun _ a b => !(mul_check_val a b == 0)) x y

/-- The `Layout` class: a `(size_, align_)` pair of `size_t` fields. -/
structure Layout where
  size : Nat
  align : Nat
deriving DecidableEq, Repr

/-- `std::optional<T>::value()`: yields the content, or throws
`std::bad_optional_access` (modelled as `.error ()`) when empty. -/
def value {α : Type} : Option α → Except Unit α
  | some a => .ok a
  | none => .error ()

/-- `Layout::from_size_align(size, align)` exactly as in the source:
rejects when `align != 0 && is_power_of_two(align)`, then rejects when
`size > max - (align - 1)` (with `align - 1` wrapping for `align = 0`). -/
def Layout.from_size_align (size align : Nat) : Option Layout :=
  if align != 0 && is_power_of_two align then none
  else if size > MAX_SIZE - sub64 align 1 then none
  else some ⟨size, align⟩

/-- The public default constructor `Layout()`, initialising both fields to 0. -/
def Layout.default : Layout := ⟨0, 0⟩

/-- C++ logical negation `!` applied to an unsigned value. -/
def cppNot (a : Nat) : Nat := if a == 0 then 1 else 0

/-- `Layout::required_padding(align)`:
`rounded_up_size = wrap_sub(wrap_add(size, align), 1) & !wrap_sub(align, 1)`
(logical `!`, as written), then `wrap_sub(rounded_up_size, size)`. -/
def Layout.required_padding (l : Layout) (align : Nat) : Nat :=
  let size := l.size
  let rounded_up_size :=
    Nat.land (wrap_sub (wrap_add size align) 1) (cppNot (wrap_sub align 1))
  wrap_sub rounded_up_size size

/-- `Layout::align_to(align)`: `from_size_align(size, max(this->align, align))`. -/
def Layout.align_to (l : Layout) (align : Nat) : Option Layout :=
  Layout.from_size_align l.size (max l.align align)

/-- `Layout::pad_to_align()`: `new_size = required_padding(align()) + size()`
(plain unsigned addition), then `from_size_align(new_size, align()).value()`,
which throws when the optional is empty. -/
def Layout.pad_to_align (l : Layout) : Except Unit Layout :=
  let new_size := (l.required_padding l.align + l.size) % SIZE_MOD
  value (Layout.from_size_align new_size l.align)

/-- `Layout::repeat(n)`: `padded_size = size() + required_padding(align())`,
`checked_mul(padded_size, n)`; on success the source calls
`from_size_align(allocate_size, align()).value()`, which throws when that
optional is empty; `checked_mul` failure yields the empty optional. -/
def Layout.repeat' (l : Layout) (n : Nat) : Except Unit (Option (Layout × Nat)) :=
  let padded_size := (l.size + l.required_padding l.align) % SIZE_MOD
  match checked_mul padded_size n with
  | some allocate_size =>
    match value (Layout.from_size_align allocate_size l.align) with
    | .ok lay => .ok (some (lay, padded_size))
    | .error e => .error e
  | none => .ok none

/-- `Layout::repeat_packed(n)`: `checked_mul(size(), n)` then
`from_size_align(sz, align())`, empty optional on any failure. -/
def Layout.repeat_packed (l : Layout) (n : Nat) : Option Layout :=
  match checked_mul l.size n with
  | some sz =>
    match Layout.from_size_align sz l.align with
    | some layout => some layout
    | none => none
  | none => none

/-- `Layout::extend(after)`: `new_align = max(align(), after.align())`,
`padding = required_padding(new_align)`, two checked additions, final
`from_size_align`; empty optional if any step yields the empty optional. -/
def Layout.extend (l after : Layout) : Option (Layout × Nat) :=
  let new_align := max l.align after.align
  let padding := l.required_padding new_align
  match checked_add l.size padding with
  | some offset =>
    match checked_add offset after.size with
    | some new_size =>
      match Layout.from_size_align new_size new_align with
      | some layout => some (layout, offset)
      | none => none
    | none => none
  | none => none

/-- `Layout::extend_packed(after)`: `checked_add(size(), after.size())`
then `from_size_align(new_size, align())`. -/
def Layout.extend_packed (l after : Layout) : Option Layout :=
  match checked_add l.size after.size with
  | some new_size => Layout.from_size_align new_size l.align
  | none => none

end Memlayout

namespace Memlayout

/-- C1: the claim states `checked_add(x, y)` is `none` iff the true sum
exceeds `MAX_SIZE`. The code does the opposite: at `x = 0, y = 0` the sum
`0` fits yet the result is `none`, and at `x = MAX_SIZE, y = 1` the sum
overflows yet the result is `some 0`, a truncated value. -/
theorem checked_add_inverted_at_zero :
    checked_add 0 0 = none ∧ (0 + 0 ≤ MAX_SIZE) ∧
    checked_add MAX_SIZE 1 = some 0 ∧ MAX_SIZE + 1 > MAX_SIZE := by
  refine ⟨by decide, by decide, ?_, by decide⟩
  rfl

/-- C2: the claim states `from_size_align(0, 1)` succeeds with size 0 and
align 1, and `from_size_align(size, 3)` always fails. The code rejects
`(0, 1)` (1 is a nonzero power of two, and the source empties the optional
exactly then) and accepts `(5, 3)`. -/
theorem from_size_align_inverted :
    Layout.from_size_align 0 1 = none ∧
    Layout.from_size_align 5 3 = some ⟨5, 3⟩ := by
  constructor <;> rfl

/-- C3: the claim states every publicly obtainable `Layout` has a
power-of-two positive alignment. The validated factory itself produces
`Layout{1, 3}` whose alignment 3 is not a power of two. -/
theorem invariant_violated_by_factory :
    Layout.from_size_align 1 3 = some ⟨1, 3⟩ ∧
    is_power_of_two 3 = false := by
  constructor <;> rfl

/-- C4: the claim states `checked_mul(x, y)` is `none` iff the product
overflows and never returns a truncated value. At `x = y = 16` the product
256 fits yet the result is `none`; at `x = y = 2^60` the product overflows
yet the result is the truncated `some 0`. -/
theorem checked_mul_wrong :
    checked_mul 16 16 = none ∧ 16 * 16 ≤ MAX_SIZE ∧
    checked_mul (2 ^ 60) (2 ^ 60) = some 0 ∧ 2 ^ 60 * 2 ^ 60 > MAX_SIZE := by
  refine ⟨by rfl, by decide, by rfl, by decide⟩

/-- C5: the claim states `required_padding(align)` is the minimal `p` with
`(size + p) % align == 0`. For `Layout{1, 2}` the code returns 7 although
`p = 1` already satisfies `(1 + 1) % 2 == 0`, so the result is not minimal. -/
theorem required_padding_not_minimal :
    Layout.required_padding ⟨1, 2⟩ 2 = 7 ∧ (1 + 1) % 2 = 0 ∧ 1 < 7 := by
  refine ⟨by rfl, by decide, by decide⟩

/-- C6: the claim states `Layout{4,4}.extend(Layout{8,8})` yields offset 8
and combined layout `{16, 8}`. The code returns the empty optional: the
inner `checked_add(4, 4)` reports `none` because its overflow check is
inverted. -/
theorem extend_fails_on_spec_example :
    Layout.extend ⟨4, 4⟩ ⟨8, 8⟩ = none := by
  rfl

/-- C7: the claim states `Layout{1,1}.repeat(4)` yields stride 1 and total
layout `{4, 1}`. The code instead throws `bad_optional_access`:
`from_size_align(4, 1)` is empty (1 is a nonzero power of two) and
`repeat` calls `.value()` on it. -/
theorem repeat_throws_on_spec_example :
    Layout.repeat' ⟨1, 1⟩ 4 = .error () := by
  rfl

/-- C8: the claim states no public operation ever throws. `pad_to_align`
on the invariant-satisfying `Layout{5, 4}` calls `.value()` on the empty
optional `from_size_align(8, 4)` and throws. -/
theorem pad_to_align_throws :
    is_power_of_two 4 = true ∧ (5 : Nat) ≤ MAX_SIZE - 3 ∧
    Layout.pad_to_align ⟨5, 4⟩ = .error () := by
  refine ⟨by rfl, by decide, by rfl⟩

/-- C9: the claim states `pad_to_align` is idempotent on every
invariant-satisfying `Layout`. On `Layout{0, 1}` (align 1 is a power of
two, size 0 is in range) `pad_to_align` throws instead of returning a
`Layout`, so neither side of the idempotence equation is a value. -/
theorem pad_to_align_no_value_to_iterate :
    is_power_of_two 1 = true ∧
    Layout.pad_to_align ⟨0, 1⟩ = .error () := by
  constructor <;> rfl

/-- C10: the public default constructor yields `size = 0, align = 0`, an
alignment that is neither positive nor a power of two, without going
through `from_size_align`. -/
theorem default_constructor_breaks_invariant :
    Layout.default = ⟨0, 0⟩ ∧ Layout.default.align = 0 ∧
    is_power_of_two Layout.default.align = false := by
  refine ⟨rfl, rfl, rfl⟩

end Memlayout
